import Mathlib

/-!
# Verification of the water-box MD notebook (`2_water_simulation.ipynb`)

Shallow embedding of the notebook's workflow: input loading, platform
selection, system construction, NPT equilibration, production run, and
RDF analysis.  The notebook is glue code over OpenMM and MDAnalysis, so
the embedding models the library calls it makes — their configuration
records and the state they thread between stages — and the control flow
of the notebook itself.  All numeric parameters are carried as `ℚ` in
the unit the notebook writes them in (kelvin, atmospheres, femtoseconds,
inverse picoseconds, Å).
-/

namespace WaterSim

/-- OpenMM platform names.  `getPlatformByName` in the notebook is called
with `'CUDA'` and `'Reference'`. -/
inductive PlatformName
  | CUDA
  | OpenCL
  | CPU
  | Reference
deriving DecidableEq, Repr

/-- Python exceptions that the notebook's library calls can raise.  The
`try`/`except` in cell 2 catches only `mm.OpenMMException`; every other
exception class is some other error. -/
inductive PyError
  | openMMException (msg : String)
  | otherError (msg : String)
deriving DecidableEq, Repr

/-- `mm.Platform.getPlatformByName(name)`: returns the platform when it is
available in the installation, raises `OpenMMException` otherwise. -/
def getPlatformByName (available : List PlatformName) (name : PlatformName) :
    Except PyError PlatformName :=
  if name ∈ available then Except.ok name
  else Except.error (PyError.openMMException "There is no registered Platform called this name")

/-- The `properties = \x7b'CudaPrecision': 'mixed'\x7d` dict built on the CUDA
branch of cell 2. -/
structure CudaProperties where
  cudaPrecision : String
deriving DecidableEq, Repr

/-- Cell 2's platform selection:
```
try:
    platform = mm.Platform.getPlatformByName('CUDA')
    properties = \x7b'CudaPrecision': 'mixed'\x7d
except mm.OpenMMException:
    platform = mm.Platform.getPlatformByName('Reference')
```
Only `OpenMMException` is caught; any other exception (and any exception
raised inside the handler itself) propagates. -/
def selectPlatform (available : List PlatformName) :
    Except PyError (PlatformName × Option CudaProperties) :=
  match getPlatformByName available PlatformName.CUDA with
  | Except.ok p => Except.ok (p, some ⟨"mixed"⟩)
  | Except.error (PyError.openMMException _) =>
      (getPlatformByName available PlatformName.Reference).map (fun p => (p, none))
  | Except.error e => Except.error e

/-- Forces held by an OpenMM `System`.  `prmtop.createSystem` with
`nonbondedMethod=app.PME, nonbondedCutoff=1.0*unit.nanometers,
constraints=app.HBonds` populates the bonded and nonbonded forces; the
notebook then adds a `MonteCarloBarostat(pressure, temperature)`. -/
inductive Force
  | harmonicBond
  | harmonicAngle
  | nonbondedPME (cutoffNm : ℚ)
  | cmMotionRemover
  | monteCarloBarostat (pressureAtm : ℚ) (temperatureK : ℚ)
deriving DecidableEq, Repr

/-- An OpenMM `System`: the force-field-parameterized object, modeled by
its list of forces (the part the notebook inspects or mutates). -/
structure OpenMMSystem where
  forces : List Force
deriving DecidableEq, Repr

/-- `system.addForce(f)`: mutates the system in place by appending the
force.  The notebook calls it once, with the barostat. -/
def OpenMMSystem.addForce (s : OpenMMSystem) (f : Force) : OpenMMSystem :=
  { forces := s.forces ++ [f] }

/-- The system as returned by `prmtop.createSystem(nonbondedMethod=app.PME,
nonbondedCutoff=1.0*unit.nanometers, constraints=app.HBonds)` in cell 3. -/
def createdSystem : OpenMMSystem :=
  { forces := [Force.harmonicBond, Force.harmonicAngle,
               Force.nonbondedPME 1, Force.cmMotionRemover] }

/-- `temperature = 300 * unit.kelvin` (cell 3). -/
def temperature : ℚ := 300

/-- `pressure = 1 * unit.atmosphere` (cell 3). -/
def pressure : ℚ := 1

/-- The system after `system.addForce(MonteCarloBarostat(pressure,
temperature))` in cell 3.  This is the single `system` object the
notebook ever holds: both `app.Simulation` constructors receive it. -/
def systemWithBarostat : OpenMMSystem :=
  createdSystem.addForce (Force.monteCarloBarostat pressure temperature)

/-- A `LangevinIntegrator(temperature, friction, stepSize)` configuration. -/
structure Integrator where
  temperatureK : ℚ
  frictionInvPs : ℚ
  stepSizeFs : ℚ
deriving DecidableEq, Repr

/-- `integratorNPT = LangevinIntegrator(temperature, 1.0/unit.picoseconds,
2.0*unit.femtoseconds)` (cell 3). -/
def integratorNPT : Integrator := ⟨temperature, 1, 2⟩

/-- `integratorProd = LangevinIntegrator(temperature, 1.0/unit.picoseconds,
2.0*unit.femtoseconds)` (cell 4). -/
def integratorProd : Integrator := ⟨temperature, 1, 2⟩

/-- The arguments actually passed to an `app.Simulation(...)` constructor
call.  `app.Simulation` takes optional `platform` and
`platformProperties` parameters; when they are omitted at the call site
they are `None` and OpenMM picks its own default platform. -/
structure SimulationArgs where
  topologySource : String
  system : OpenMMSystem
  integrator : Integrator
  platform : Option PlatformName
  platformProperties : Option CudaProperties
deriving DecidableEq, Repr

/-- `simulationNPT = app.Simulation(prmtop.topology, system, integratorNPT)`
(cell 3).  No platform or properties argument appears at the call site. -/
def simulationNPTArgs : SimulationArgs :=
  ⟨"water/water_box.prmtop", systemWithBarostat, integratorNPT, none, none⟩

/-- `simulationProd = app.Simulation(prmtop.topology, system, integratorProd)`
(cell 4).  It receives the same (mutated) `system` object as the NPT
stage; no platform or properties argument appears at the call site. -/
def simulationProdArgs : SimulationArgs :=
  ⟨"water/water_box.prmtop", systemWithBarostat, integratorProd, none, none⟩

/-- Fields a `StateDataReporter` can record.  Constructor keyword
arguments of `app.StateDataReporter` that the notebook could set. -/
inductive StateField
  | step
  | potentialEnergy
  | kineticEnergy
  | totalEnergy
  | temperature
  | volume
  | density
  | speed
deriving DecidableEq, Repr

/-- An `app.StateDataReporter(file, reportInterval, ...)` configuration.
Every boolean field defaults to `False` in the library; a call site
enables exactly the keywords it passes as `True`. -/
structure StateDataReporterCfg where
  file : String
  reportInterval : Nat
  step : Bool := false
  potentialEnergy : Bool := false
  kineticEnergy : Bool := false
  totalEnergy : Bool := false
  temperature : Bool := false
  volume : Bool := false
  density : Bool := false
  speed : Bool := false
deriving DecidableEq, Repr

/-- The fields a `StateDataReporter` configuration actually records, in
the library's column order. -/
def StateDataReporterCfg.enabledFields (r : StateDataReporterCfg) : List StateField :=
  (if r.step then [StateField.step] else []) ++
  (if r.potentialEnergy then [StateField.potentialEnergy] else []) ++
  (if r.kineticEnergy then [StateField.kineticEnergy] else []) ++
  (if r.totalEnergy then [StateField.totalEnergy] else []) ++
  (if r.temperature then [StateField.temperature] else []) ++
  (if r.volume then [StateField.volume] else []) ++
  (if r.density then [StateField.density] else []) ++
  (if r.speed then [StateField.speed] else [])

/-- `app.StateDataReporter("water/npt.log", 1000, step=True,
potentialEnergy=True, temperature=True, density=True)` (cell 3). -/
def nptLogReporter : StateDataReporterCfg :=
  { file := "water/npt.log", reportInterval := 1000,
    step := true, potentialEnergy := true, temperature := true, density := true }

/-- `app.StateDataReporter("water/production.log", 1000, step=True,
potentialEnergy=True, temperature=True, density=True)` (cell 4). -/
def productionLogReporter : StateDataReporterCfg :=
  { file := "water/production.log", reportInterval := 1000,
    step := true, potentialEnergy := true, temperature := true, density := true }

/-- `app.DCDReporter("water/production.dcd", 1000)` (cell 4). -/
structure DCDReporterCfg where
  file : String
  reportInterval : Nat
deriving DecidableEq, Repr

/-- The DCD trajectory reporter attached to the production simulation. -/
def productionDCDReporter : DCDReporterCfg :=
  ⟨"water/production.dcd", 1000⟩

/-- `simulationProd.step(500000)` (cell 4). -/
def productionSteps : Nat := 500000

/-- `simulationNPT.step(50000)` (cell 3). -/
def nptSteps : Nat := 50000

/-- Frames a periodic reporter writes during `simulation.step(totalSteps)`
on a freshly constructed simulation (current step count 0): OpenMM calls
the reporter at every step `s` with `1 ≤ s ≤ totalSteps` whose step count
is a multiple of the report interval. -/
def framesWritten (totalSteps interval : Nat) : Nat :=
  ((Finset.Ioc 0 totalSteps).filter (fun s => s % interval = 0)).card

/-- A 3-vector of coordinates (one OpenMM `Vec3`). -/
abbrev Vec3 : Type := ℚ × ℚ × ℚ

/-- The per-particle state held by an OpenMM `Context`: positions,
velocities and the three periodic box vectors. -/
structure ContextState where
  positions : List Vec3
  velocities : List Vec3
  boxVectors : Vec3 × Vec3 × Vec3
deriving DecidableEq, Repr

/-- `context.setPositions(p)`. -/
def setPositions (c : ContextState) (p : List Vec3) : ContextState :=
  { c with positions := p }

/-- `context.setVelocities(v)`. -/
def setVelocities (c : ContextState) (v : List Vec3) : ContextState :=
  { c with velocities := v }

/-- `context.setPeriodicBoxVectors(a, b, c)`. -/
def setPeriodicBoxVectors (c : ContextState) (bv : Vec3 × Vec3 × Vec3) : ContextState :=
  { c with boxVectors := bv }

/-- Cell 3's state extraction followed by cell 4's installation:
```
state_eq = simulationNPT.context.getState(getPositions=True, getVelocities=True, enforcePeriodicBox=True)
positions_eq = state_eq.getPositions()
velocities_eq = state_eq.getVelocities()
box_vectors_eq = state_eq.getPeriodicBoxVectors()
...
simulationProd.context.setPositions(positions_eq)
simulationProd.context.setVelocities(velocities_eq)
simulationProd.context.setPeriodicBoxVectors(*box_vectors_eq)
```
applied to the production context as freshly constructed. -/
def installEquilibratedState (freshProdCtx : ContextState) (eqFinal : ContextState) :
    ContextState :=
  setPeriodicBoxVectors
    (setVelocities (setPositions freshProdCtx eqFinal.positions) eqFinal.velocities)
    eqFinal.boxVectors

/-- An atom of the MDAnalysis `Universe` loaded from
`water/water_box.prmtop` + `water/production.dcd`: what the RDF analysis
reads of it is its element and which residue (water molecule) it belongs
to. -/
structure Atom where
  index : Nat
  element : String
  residueIndex : Nat
deriving DecidableEq, Repr

/-- `u.select_atoms("element O")`-style selection by element. -/
def selectAtomsElement (u : List Atom) (e : String) : List Atom :=
  u.filter (fun a => a.element == e)

/-- The `exclude_same` keyword of `rdf.InterRDF`: `None` (default) or
`"residue"` as the notebook passes it. -/
inductive ExclusionBlock
  | noExclusion
  | sameResidue
deriving DecidableEq, Repr

/-- An `rdf.InterRDF(g1, g2, range=(lo, hi), bins=n, exclude_same=...)`
configuration. -/
structure InterRDFCfg where
  g1 : List Atom
  g2 : List Atom
  rangeLo : ℚ
  rangeHi : ℚ
  nbins : Nat
  excludeSame : ExclusionBlock
deriving Repr

/-- `rdf_OO = rdf.InterRDF(oxygen_atoms, oxygen_atoms, range=(0.0, 10.0),
bins=100, exclude_same="residue")` (cell 9), as a function of the
universe's atom list. -/
def rdfOOCfg (u : List Atom) : InterRDFCfg :=
  { g1 := selectAtomsElement u "O", g2 := selectAtomsElement u "O",
    rangeLo := 0, rangeHi := 10, nbins := 100,
    excludeSame := ExclusionBlock.sameResidue }

/-- `rdf_OH = rdf.InterRDF(oxygen_atoms, hydrogen_atoms, range=(0.0, 10.0),
bins=100, exclude_same="residue")` (cell 9), as a function of the
universe's atom list. -/
def rdfOHCfg (u : List Atom) : InterRDFCfg :=
  { g1 := selectAtomsElement u "O", g2 := selectAtomsElement u "H",
    rangeLo := 0, rangeHi := 10, nbins := 100,
    excludeSame := ExclusionBlock.sameResidue }

/-- `results.bins` of an `InterRDF` run: the centers of `nbins` uniform
histogram bins over `[rangeLo, rangeHi]` — one entry per bin, independent
of the trajectory. -/
def InterRDFCfg.binsArray (cfg : InterRDFCfg) : List ℚ :=
  (List.range cfg.nbins).map (fun i =>
    cfg.rangeLo + ((i : ℚ) + 1/2) * (cfg.rangeHi - cfg.rangeLo) / (cfg.nbins : ℚ))

/-- The atom pairs `InterRDF` accumulates into the histogram: all pairs
from `g1 × g2`, minus those blocked by `exclude_same` (with
`exclude_same="residue"`, every pair whose two atoms share a residue). -/
def InterRDFCfg.contributingPairs (cfg : InterRDFCfg) : List (Atom × Atom) :=
  (cfg.g1.product cfg.g2).filter (fun p =>
    match cfg.excludeSame with
    | ExclusionBlock.sameResidue => p.1.residueIndex != p.2.residueIndex
    | ExclusionBlock.noExclusion => true)

/-- Histogram bin index of a distance `d` under a configuration. -/
def InterRDFCfg.binIndex (cfg : InterRDFCfg) (d : ℚ) : Nat :=
  (⌊(d - cfg.rangeLo) * (cfg.nbins : ℚ) / (cfg.rangeHi - cfg.rangeLo)⌋).toNat

/-- `results.rdf` of an `InterRDF` run, up to the library's normalization:
the per-bin pair counts over the contributing pairs, given the
inter-atom distances `dist` realized by the trajectory — one entry per
bin. -/
def InterRDFCfg.rdfCounts (cfg : InterRDFCfg) (dist : Atom → Atom → ℚ) : List Nat :=
  (List.range cfg.nbins).map (fun b =>
    cfg.contributingPairs.countP (fun p => cfg.binIndex (dist p.1 p.2) == b))

/-- The stages a run of the notebook can pass through.  The vocabulary
includes an NVT equilibration stage so that the intro markdown's staged
plan (NPT equilibration, then NVT equilibration, then production) can be
compared with what the code cells execute. -/
inductive Stage
  | parameterSetup
  | nptEquilibrationStage
  | nvtEquilibrationStage
  | productionStage
  | analysisStage
  | plottingStage
deriving DecidableEq, Repr

/-- Whether a stage is one of the equilibration stages. -/
def Stage.isEquilibration : Stage → Bool
  | Stage.nptEquilibrationStage => true
  | Stage.nvtEquilibrationStage => true
  | _ => false

/-- The stage sequence the code cells execute, in order: cell 2 (inputs,
platform), cell 3 (system construction, minimization, NPT run), cell 4
(production run), cells 7/9 (universe loading and RDFs), cell 10
(plots). -/
def notebookStages : List Stage :=
  [Stage.parameterSetup, Stage.nptEquilibrationStage, Stage.productionStage,
   Stage.analysisStage, Stage.plottingStage]

/-- The outcome of each external library call the notebook makes, as the
environment a run executes in: each call either returns (`ok`) or raises
a Python exception (`error`).  Platform availability drives cell 2's
`getPlatformByName` calls. -/
structure Env where
  availablePlatforms : List PlatformName
  prmtopLoad : Except PyError Unit
  inpcrdLoad : Except PyError Unit
  createSystemResult : Except PyError Unit
  minimizeResult : Except PyError Unit
  nptStepResult : Except PyError Unit
  prodStepResult : Except PyError Unit
  universeLoad : Except PyError Unit
  rdfOORun : Except PyError Unit
  rdfOHRun : Except PyError Unit
  plotResult : Except PyError Unit
deriving Repr

/-- The notebook's top-level control flow: a straight line of library
calls in cell order.  The only `try`/`except` is `selectPlatform`
(cell 2); every other call's exception propagates out of the run
unchanged, aborting everything after it.  On success the run returns the
completed stage sequence. -/
def runNotebook (env : Env) : Except PyError (List Stage) :=
  match env.prmtopLoad with
  | Except.error e => Except.error e
  | Except.ok _ =>
  match env.inpcrdLoad with
  | Except.error e => Except.error e
  | Except.ok _ =>
  match selectPlatform env.availablePlatforms with
  | Except.error e => Except.error e
  | Except.ok _ =>
  match env.createSystemResult with
  | Except.error e => Except.error e
  | Except.ok _ =>
  match env.minimizeResult with
  | Except.error e => Except.error e
  | Except.ok _ =>
  match env.nptStepResult with
  | Except.error e => Except.error e
  | Except.ok _ =>
  match env.prodStepResult with
  | Except.error e => Except.error e
  | Except.ok _ =>
  match env.universeLoad with
  | Except.error e => Except.error e
  | Except.ok _ =>
  match env.rdfOORun with
  | Except.error e => Except.error e
  | Except.ok _ =>
  match env.rdfOHRun with
  | Except.error e => Except.error e
  | Except.ok _ =>
  match env.plotResult with
  | Except.error e => Except.error e
  | Except.ok _ => Except.ok notebookStages

/-- Cells 3–4's two `app.Simulation(...)` constructions, as a function of
cell 2's platform-selection result.  Neither call site passes `platform`
or `platformProperties`, so the selection result is unused — exactly as
in the notebook. -/
def simulationsBuilt (_sel : PlatformName × Option CudaProperties) :
    SimulationArgs × SimulationArgs :=
  (simulationNPTArgs, simulationProdArgs)

/-- C1, evaluated at the failing configuration: the `System` object the
production simulation is constructed with is the same one mutated in the
NPT cell, and it still contains the `MonteCarloBarostat(1 atm, 300 K)`.
Pressure coupling therefore remains active during the production run, so
the production stage is not constant-volume — contradicting the claim
that the barostat is active only during NPT equilibration. -/
theorem c1_barostat_in_production_system :
    Force.monteCarloBarostat pressure temperature ∈ simulationProdArgs.system.forces ∧
    simulationProdArgs.system = simulationNPTArgs.system := by
  constructor
  · simp [simulationProdArgs, systemWithBarostat, OpenMMSystem.addForce, createdSystem]
  · rfl

/-- C2: installing `positions_eq`, `velocities_eq` and `box_vectors_eq`
into the freshly constructed production context reproduces the
equilibration context's final state exactly; and the two simulations are
built from the same topology and the same system, so the state shapes
agree. -/
theorem c2_equilibrated_state_installed (freshCtx eqFinal : ContextState) :
    installEquilibratedState freshCtx eqFinal = eqFinal ∧
    simulationProdArgs.topologySource = simulationNPTArgs.topologySource ∧
    simulationProdArgs.system = simulationNPTArgs.system := by
  refine ⟨?_, rfl, rfl⟩
  cases eqFinal
  rfl

/-- C3: platform selection attempts CUDA first (succeeding with the CUDA
platform and the mixed-precision properties when CUDA is available), and
whenever the CUDA lookup fails it falls back to the Reference platform;
as long as Reference is available the selection yields an available
platform, and under the fallback a run whose other library calls all
succeed completes the whole pipeline. -/
theorem c3_platform_fallback (avail : List PlatformName)
    (hRef : PlatformName.Reference ∈ avail) :
    (PlatformName.CUDA ∈ avail →
      selectPlatform avail = Except.ok (PlatformName.CUDA, some ⟨"mixed"⟩)) ∧
    (PlatformName.CUDA ∉ avail →
      selectPlatform avail = Except.ok (PlatformName.Reference, none)) ∧
    (∃ r, selectPlatform avail = Except.ok r ∧ r.1 ∈ avail) ∧
    (∀ env : Env, env.availablePlatforms = avail →
      env.prmtopLoad = Except.ok () → env.inpcrdLoad = Except.ok () →
      env.createSystemResult = Except.ok () → env.minimizeResult = Except.ok () →
      env.nptStepResult = Except.ok () → env.prodStepResult = Except.ok () →
      env.universeLoad = Except.ok () → env.rdfOORun = Except.ok () →
      env.rdfOHRun = Except.ok () → env.plotResult = Except.ok () →
      runNotebook env = Except.ok notebookStages) := by
  have hsel : (PlatformName.CUDA ∈ avail →
      selectPlatform avail = Except.ok (PlatformName.CUDA, some ⟨"mixed"⟩)) ∧
      (PlatformName.CUDA ∉ avail →
      selectPlatform avail = Except.ok (PlatformName.Reference, none)) := by
    constructor
    · intro hC
      simp [selectPlatform, getPlatformByName, hC]
    · intro hC
      simp [selectPlatform, getPlatformByName, hC, hRef, Except.map]
  refine ⟨hsel.1, hsel.2, ?_, ?_⟩
  · by_cases hC : PlatformName.CUDA ∈ avail
    · exact ⟨_, hsel.1 hC, hC⟩
    · exact ⟨_, hsel.2 hC, hRef⟩
  · intro env hA h1 h2 h3 h4 h5 h6 h7 h8 h9 h10
    have hselOk : ∃ r, selectPlatform env.availablePlatforms = Except.ok r := by
      rw [hA]
      by_cases hC : PlatformName.CUDA ∈ avail
      · exact ⟨_, hsel.1 hC⟩
      · exact ⟨_, hsel.2 hC⟩
    obtain ⟨r, hr⟩ := hselOk
    simp [runNotebook, h1, h2, hr, h3, h4, h5, h6, h7, h8, h9, h10]

/-- C3 witness: with only the Reference platform installed, the fallback
fires and selects Reference. -/
theorem c3_platform_fallback_witness :
    selectPlatform [PlatformName.Reference] = Except.ok (PlatformName.Reference, none) :=
  (c3_platform_fallback [PlatformName.Reference] (by decide)).2.1 (by decide)

/-- C4: stepping the freshly constructed production simulation for the
configured `500000` steps with the DCD reporter's configured interval of
`1000` writes exactly `500` trajectory frames. -/
theorem c4_production_frame_count :
    framesWritten productionSteps productionDCDReporter.reportInterval = 500 ∧
    productionSteps = 500000 ∧ productionDCDReporter.reportInterval = 1000 := by
  refine ⟨?_, rfl, rfl⟩
  show framesWritten 500000 1000 = 500
  unfold framesWritten
  have hfe : ((Finset.Ioc 0 500000).filter (fun s => s % 1000 = 0)) =
      ((Finset.Ioc 0 500000).filter (fun s => 1000 ∣ s)) := by
    apply Finset.filter_congr
    intro x _
    exact Nat.dvd_iff_mod_eq_zero.symm
  rw [hfe, Nat.Ioc_filter_dvd_card_eq_div]

/-- C5: for every universe and every realized set of distances, the O-O
and O-H RDF outputs each have one entry per configured bin — their bins
arrays and per-bin count arrays all have length `100` — and both
configurations use `100` bins over the range `0.0` to `10.0`. -/
theorem c5_rdf_output_lengths (u : List Atom) (dist : Atom → Atom → ℚ) :
    ((rdfOOCfg u).binsArray.length = 100 ∧ ((rdfOOCfg u).rdfCounts dist).length = 100) ∧
    ((rdfOHCfg u).binsArray.length = 100 ∧ ((rdfOHCfg u).rdfCounts dist).length = 100) ∧
    ((rdfOOCfg u).rangeLo = 0 ∧ (rdfOOCfg u).rangeHi = 10 ∧ (rdfOOCfg u).nbins = 100) ∧
    ((rdfOHCfg u).rangeLo = 0 ∧ (rdfOHCfg u).rangeHi = 10 ∧ (rdfOHCfg u).nbins = 100) := by
  refine ⟨⟨?_, ?_⟩, ⟨?_, ?_⟩, ⟨rfl, rfl, rfl⟩, ⟨rfl, rfl, rfl⟩⟩ <;>
    simp only [InterRDFCfg.binsArray, InterRDFCfg.rdfCounts,
      List.length_map, List.length_range] <;> rfl

/-- C6: with `exclude_same="residue"` in both `InterRDF` calls, every
atom pair that contributes to either g(r) has its two atoms in different
residues — no intramolecular pair is counted. -/
theorem c6_no_intramolecular_pairs (u : List Atom) (p : Atom × Atom)
    (hmem : p ∈ (rdfOOCfg u).contributingPairs ∨ p ∈ (rdfOHCfg u).contributingPairs) :
    p.1.residueIndex ≠ p.2.residueIndex := by
  rcases hmem with h | h <;>
    simp [InterRDFCfg.contributingPairs, rdfOOCfg, rdfOHCfg, List.mem_filter] at h <;>
    exact h.2

/-- C6 witness: in a three-atom universe of two water residues, the O-O
pair across the two residues contributes and indeed spans distinct
residues. -/
theorem c6_no_intramolecular_pairs_witness :
    (⟨0, "O", 0⟩ : Atom).residueIndex ≠ (⟨2, "O", 1⟩ : Atom).residueIndex :=
  c6_no_intramolecular_pairs [⟨0, "O", 0⟩, ⟨1, "H", 0⟩, ⟨2, "O", 1⟩]
    (⟨0, "O", 0⟩, ⟨2, "O", 1⟩) (Or.inl (by decide))

/-- C7, evaluated on the executed stage sequence: the notebook runs
parameter setup, a single NPT equilibration, the production run, the
analysis, and plotting, in that order — exactly one equilibration stage,
not the two (NPT then NVT) that the claim and the notebook's own
introduction describe. -/
theorem c7_single_equilibration_stage :
    notebookStages.countP Stage.isEquilibration = 1 ∧
    notebookStages = [Stage.parameterSetup, Stage.nptEquilibrationStage,
      Stage.productionStage, Stage.analysisStage, Stage.plottingStage] :=
  ⟨rfl, rfl⟩

/-- C8: every failure other than the handled CUDA-lookup case propagates
out of the run as the library's own exception, unchanged, aborting the
workflow: whichever library call is the first to raise — input loading,
platform selection itself (when even the fallback lookup fails), system
construction, minimization, either stepping loop, universe loading,
either RDF run, or plotting — the run's overall result is exactly that
exception. -/
theorem c8_errors_propagate (env : Env) (e : PyError) :
    (env.prmtopLoad = Except.error e → runNotebook env = Except.error e) ∧
    (env.prmtopLoad = Except.ok () → env.inpcrdLoad = Except.error e →
      runNotebook env = Except.error e) ∧
    (env.prmtopLoad = Except.ok () → env.inpcrdLoad = Except.ok () →
      selectPlatform env.availablePlatforms = Except.error e →
      runNotebook env = Except.error e) ∧
    (∀ r, env.prmtopLoad = Except.ok () → env.inpcrdLoad = Except.ok () →
      selectPlatform env.availablePlatforms = Except.ok r →
      env.createSystemResult = Except.error e →
      runNotebook env = Except.error e) ∧
    (∀ r, env.prmtopLoad = Except.ok () → env.inpcrdLoad = Except.ok () →
      selectPlatform env.availablePlatforms = Except.ok r →
      env.createSystemResult = Except.ok () → env.minimizeResult = Except.error e →
      runNotebook env = Except.error e) ∧
    (∀ r, env.prmtopLoad = Except.ok () → env.inpcrdLoad = Except.ok () →
      selectPlatform env.availablePlatforms = Except.ok r →
      env.createSystemResult = Except.ok () → env.minimizeResult = Except.ok () →
      env.nptStepResult = Except.error e →
      runNotebook env = Except.error e) ∧
    (∀ r, env.prmtopLoad = Except.ok () → env.inpcrdLoad = Except.ok () →
      selectPlatform env.availablePlatforms = Except.ok r →
      env.createSystemResult = Except.ok () → env.minimizeResult = Except.ok () →
      env.nptStepResult = Except.ok () → env.prodStepResult = Except.error e →
      runNotebook env = Except.error e) ∧
    (∀ r, env.prmtopLoad = Except.ok () → env.inpcrdLoad = Except.ok () →
      selectPlatform env.availablePlatforms = Except.ok r →
      env.createSystemResult = Except.ok () → env.minimizeResult = Except.ok () →
      env.nptStepResult = Except.ok () → env.prodStepResult = Except.ok () →
      env.universeLoad = Except.error e →
      runNotebook env = Except.error e) ∧
    (∀ r, env.prmtopLoad = Except.ok () → env.inpcrdLoad = Except.ok () →
      selectPlatform env.availablePlatforms = Except.ok r →
      env.createSystemResult = Except.ok () → env.minimizeResult = Except.ok () →
      env.nptStepResult = Except.ok () → env.prodStepResult = Except.ok () →
      env.universeLoad = Except.ok () → env.rdfOORun = Except.error e →
      runNotebook env = Except.error e) ∧
    (∀ r, env.prmtopLoad = Except.ok () → env.inpcrdLoad = Except.ok () →
      selectPlatform env.availablePlatforms = Except.ok r →
      env.createSystemResult = Except.ok () → env.minimizeResult = Except.ok () →
      env.nptStepResult = Except.ok () → env.prodStepResult = Except.ok () →
      env.universeLoad = Except.ok () → env.rdfOORun = Except.ok () →
      env.rdfOHRun = Except.error e →
      runNotebook env = Except.error e) ∧
    (∀ r, env.prmtopLoad = Except.ok () → env.inpcrdLoad = Except.ok () →
      selectPlatform env.availablePlatforms = Except.ok r →
      env.createSystemResult = Except.ok () → env.minimizeResult = Except.ok () →
      env.nptStepResult = Except.ok () → env.prodStepResult = Except.ok () →
      env.universeLoad = Except.ok () → env.rdfOORun = Except.ok () →
      env.rdfOHRun = Except.ok () → env.plotResult = Except.error e →
      runNotebook env = Except.error e) := by
  refine ⟨?_, ?_, ?_, ?_, ?_, ?_, ?_, ?_, ?_, ?_, ?_⟩
  · intro h1
    simp [runNotebook, h1]
  · intro h1 h2
    simp [runNotebook, h1, h2]
  · intro h1 h2 hs
    simp [runNotebook, h1, h2, hs]
  · intro r h1 h2 hs h3
    simp [runNotebook, h1, h2, hs, h3]
  · intro r h1 h2 hs h3 h4
    simp [runNotebook, h1, h2, hs, h3, h4]
  · intro r h1 h2 hs h3 h4 h5
    simp [runNotebook, h1, h2, hs, h3, h4, h5]
  · intro r h1 h2 hs h3 h4 h5 h6
    simp [runNotebook, h1, h2, hs, h3, h4, h5, h6]
  · intro r h1 h2 hs h3 h4 h5 h6 h7
    simp [runNotebook, h1, h2, hs, h3, h4, h5, h6, h7]
  · intro r h1 h2 hs h3 h4 h5 h6 h7 h8
    simp [runNotebook, h1, h2, hs, h3, h4, h5, h6, h7, h8]
  · intro r h1 h2 hs h3 h4 h5 h6 h7 h8 h9
    simp [runNotebook, h1, h2, hs, h3, h4, h5, h6, h7, h8, h9]
  · intro r h1 h2 hs h3 h4 h5 h6 h7 h8 h9 h10
    simp [runNotebook, h1, h2, hs, h3, h4, h5, h6, h7, h8, h9, h10]

/-- C8 witness: a run whose prmtop load raises a (non-OpenMMException)
error terminates with exactly that error. -/
theorem c8_errors_propagate_witness :
    runNotebook
      { availablePlatforms := [PlatformName.Reference],
        prmtopLoad := Except.error (PyError.otherError "malformed prmtop"),
        inpcrdLoad := Except.ok (), createSystemResult := Except.ok (),
        minimizeResult := Except.ok (), nptStepResult := Except.ok (),
        prodStepResult := Except.ok (), universeLoad := Except.ok (),
        rdfOORun := Except.ok (), rdfOHRun := Except.ok (),
        plotResult := Except.ok () } =
      Except.error (PyError.otherError "malformed prmtop") :=
  (c8_errors_propagate _ (PyError.otherError "malformed prmtop")).1 rfl

/-- C9: both stages' plain-text state logs record exactly the fields
step, potential energy, temperature and density, every `1000` steps, to
`water/npt.log` and `water/production.log` respectively. -/
theorem c9_log_reporter_fields :
    nptLogReporter.enabledFields =
      [StateField.step, StateField.potentialEnergy, StateField.temperature,
       StateField.density] ∧
    productionLogReporter.enabledFields =
      [StateField.step, StateField.potentialEnergy, StateField.temperature,
       StateField.density] ∧
    nptLogReporter.reportInterval = 1000 ∧
    productionLogReporter.reportInterval = 1000 ∧
    nptLogReporter.file = "water/npt.log" ∧
    productionLogReporter.file = "water/production.log" :=
  ⟨rfl, rfl, rfl, rfl, rfl, rfl⟩

/-- C10: the platform-selection result is never passed to either
`app.Simulation` constructor: for any two runs whose platform selection
succeeds (with possibly different outcomes), the constructed
equilibration and production simulation arguments are identical, and
both constructions pass no platform and no platform properties. -/
theorem c10_platform_noninterference (a₁ a₂ : List PlatformName)
    (r₁ r₂ : PlatformName × Option CudaProperties)
    (h₁ : selectPlatform a₁ = Except.ok r₁)
    (h₂ : selectPlatform a₂ = Except.ok r₂) :
    simulationsBuilt r₁ = simulationsBuilt r₂ ∧
    (simulationsBuilt r₁).1.platform = none ∧
    (simulationsBuilt r₁).2.platform = none ∧
    (simulationsBuilt r₁).1.platformProperties = none ∧
    (simulationsBuilt r₁).2.platformProperties = none :=
  ⟨rfl, rfl, rfl, rfl, rfl⟩

/-- C10 witness: a CUDA-selecting run and a Reference-fallback run build
identical simulations. -/
theorem c10_platform_noninterference_witness :
    simulationsBuilt (PlatformName.CUDA, some ⟨"mixed"⟩) =
      simulationsBuilt (PlatformName.Reference, none) :=
  (c10_platform_noninterference [PlatformName.CUDA] [PlatformName.Reference]
    (PlatformName.CUDA, some ⟨"mixed"⟩) (PlatformName.Reference, none)
    (by simp [selectPlatform, getPlatformByName])
    (by simp [selectPlatform, getPlatformByName, Except.map])).1

end WaterSim
